import Mathlib

/-!
Verification of the warehouse table schema-catalog module
(posthog/warehouse/api/table.py): the column catalog, the type-mapping
registry, the schema mutator (`update_schema`), the lifecycle operations
(`create`, `destroy`, `refresh_schema`).

The HTTP/ORM machinery is out of scope. The viewset and serializer code is
embedded directly from the source; the pieces that live on the
`DataWarehouseTable` model or in `posthog.warehouse.models.table` /
`posthog.schema` (the type-mapping tables, `get_columns`, `soft_delete`,
`validate_column_type`) are not part of the source tree here and are
modelled from the spec, as marked on each such definition.
-/

set_option autoImplicit false

namespace Warehouse

/-- Serialized field type enum. Modelled from the spec: the user-facing
serialized type enum of coarse semantic kinds ("string, integer, float,
boolean, date, datetime, json, etc."), mirroring
`posthog.schema.DatabaseSerializedFieldType` which is not in the source
tree. -/
inductive DatabaseSerializedFieldType where
  | integer
  | float
  | string
  | datetime
  | date
  | boolean
  | array
  | json
deriving Repr, DecidableEq

/-- ASCII upper-casing of one character (`str.upper()` on the ASCII names
involved here). -/
def upperChar (c : Char) : Char :=
  if 'a' ≤ c ∧ c ≤ 'z' then Char.ofNat (c.toNat - 32) else c

/-- ASCII upper-casing of a string (`value.upper()`); the serialized type
names are ASCII. -/
def toUpperAscii (s : String) : String :=
  String.mk (s.data.map upperChar)

/-- Modelled from the spec: the registry lookup `DatabaseSerializedFieldType[value.upper()]`
(enum lookup by upper-cased name, as used at the source's type-check);
an unknown serialized type yields `none` (`UnknownTypeError` at the caller). -/
def parseSerializedType (s : String) : Option DatabaseSerializedFieldType :=
  match toUpperAscii s with
  | "INTEGER" => some .integer
  | "FLOAT" => some .float
  | "STRING" => some .string
  | "DATETIME" => some .datetime
  | "DATE" => some .date
  | "BOOLEAN" => some .boolean
  | "ARRAY" => some .array
  | "JSON" => some .json
  | _ => none

/-- Modelled from the spec: the Type Mapping Registry's serialized-type to
native (clickhouse) storage-type table,
`posthog.warehouse.models.table.SERIALIZED_FIELD_TO_CLICKHOUSE_MAPPING`,
which is not in the source tree. -/
def SERIALIZED_FIELD_TO_CLICKHOUSE_MAPPING : DatabaseSerializedFieldType → String
  | .integer => "Int64"
  | .float => "Float64"
  | .string => "String"
  | .datetime => "DateTime64"
  | .date => "Date"
  | .boolean => "Bool"
  | .array => "Array"
  | .json => "Map"

/-- Modelled from the spec: the Type Mapping Registry's native storage-type
to query-engine (hogql) type table,
`posthog.warehouse.models.table.CLICKHOUSE_HOGQL_MAPPING`, which is not in
the source tree; the result is the query-engine type identifier
(the `.__name__` of the mapped field class). An unmapped native type is a
caller error, returned here as `none`. -/
def CLICKHOUSE_HOGQL_MAPPING : String → Option String
  | "Int64" => some "IntegerDatabaseField"
  | "Float64" => some "FloatDatabaseField"
  | "String" => some "StringDatabaseField"
  | "DateTime64" => some "DateTimeDatabaseField"
  | "Date" => some "DateDatabaseField"
  | "Bool" => some "BooleanDatabaseField"
  | "Array" => some "StringArrayDatabaseField"
  | "Map" => some "StringJSONDatabaseField"
  | _ => none

/-- Structured column descriptor (the "new" style dict in `table.columns`):
the keys the mutator reads and writes (`clickhouse`, `hogql`, `valid`),
plus `extra` standing for any other keys of the JSON object (e.g. a nested
field tree), which the mutator never touches on a structured descriptor
and which resetting a legacy value to `{}` clears. -/
structure ColumnDef where
  clickhouse : Option String
  hogql : Option String
  valid : Option Bool
  extra : List (String × String)
deriving Repr, DecidableEq

/-- A catalog entry: either the legacy bare type string, or the structured
descriptor object. -/
inductive ColumnValue where
  | legacy (s : String)
  | structured (d : ColumnDef)
deriving Repr, DecidableEq

/-- The per-table catalog: a column-name-keyed mapping (Python dict),
embedded as an association list. -/
abbrev Catalog := List (String × ColumnValue)

/-- Dict lookup `columns[key]` / `key in columns.keys()`. -/
def getCol (c : Catalog) (k : String) : Option ColumnValue :=
  match c with
  | [] => none
  | (k', v) :: rest => if k' = k then some v else getCol rest k

/-- Dict assignment `columns[key] = v` (overwrites in place; inserts at the
end when the key is absent, as a Python dict does). -/
def setCol (c : Catalog) (k : String) (v : ColumnValue) : Catalog :=
  match c with
  | [] => [(k, v)]
  | (k', v') :: rest => if k' = k then (k, v) :: rest else (k', v') :: setCol rest k v

/-- Access credential (`DataWarehouseCredential`): key/secret pair. -/
structure Credential where
  access_key : String
  access_secret : String
deriving Repr, DecidableEq

/-- The persisted `DataWarehouseTable` record, restricted to the fields the
embedded operations read or write. `external_data_source` is the optional
link to an external data source (`some id` when linked). -/
structure Table where
  name : String
  format : String
  url_pattern : String
  team_id : Nat
  deleted : Bool
  external_data_source : Option Nat
  credential : Option Credential
  columns : Catalog
deriving Repr, DecidableEq

/-- Modelled from the spec: `DataWarehouseTable.validate_column_type` (not
in the source tree) is the table's schema-compatibility rule, "treated as
an external predicate": whether the column's native storage type is
representable in the query engine for this table's format. The external
part is the abstract predicate `compat` on the table's format and the
column's native type string. -/
def validate_column_type (compat : String → String → Bool) (t : Table) (key : String) : Bool :=
  match getCol t.columns key with
  | none => false
  | some (.legacy s) => compat t.format s
  | some (.structured d) => compat t.format (d.clickhouse.getD "")

/-- Response outcome of the viewset endpoints `update_schema` / `destroy`,
keeping only the distinctions the spec names. -/
inductive Resp where
  | ok
  | noContent
  | sourcedTableError
  | unknownColumnError (key : String)
  | unknownTypeError (key value : String)
deriving Repr, DecidableEq

/-- The structured part of an optional catalog entry: the descriptor when
the entry is structured, the empty descriptor otherwise (the legacy
conversion `columns[key] = {}` of the source). -/
def colBase (o : Option ColumnValue) : ColumnDef :=
  match o with
  | some (.structured d) => d
  | _ => ⟨none, none, none, []⟩

/-- The source's first precondition loop: `for key in updates.keys(): if key
not in column_keys: return 400`. Returns the first offending key. -/
def checkColumnsExist (cols : Catalog) : List (String × String) → Option String
  | [] => none
  | (k, _) :: rest => if (getCol cols k).isSome then checkColumnsExist cols rest else some k

/-- One step of the source's phase-1 loop body, after the type parsed to
`ty`: convert a legacy (bare string) value to `{}`, then overwrite
`columns[key]["clickhouse"]` with the Nullable-wrapped storage type and
`columns[key]["hogql"]` with the registry mapping of that storage type. -/
def applyTypeUpdate (cols : Catalog) (k : String) (ty : DatabaseSerializedFieldType) : Catalog :=
  let ch0 := SERIALIZED_FIELD_TO_CLICKHOUSE_MAPPING ty
  setCol cols k (.structured
    { colBase (getCol cols k) with
        clickhouse := some ("Nullable(" ++ ch0 ++ ")"), hogql := CLICKHOUSE_HOGQL_MAPPING ch0 })

/-- The source's phase-1 loop over `updates.items()`: per entry, look the
requested type up in the registry (error stops the request before the
save, so a type error persists nothing) and apply the type update. -/
def phase1 (cols : Catalog) : List (String × String) → Except (String × String) Catalog
  | [] => .ok cols
  | (k, v) :: rest =>
    match parseSerializedType v with
    | none => .error (k, v)
    | some ty => phase1 (applyTypeUpdate cols k ty) rest

/-- The source's phase-2 loop: for each updated key recompute
`columns[key]["valid"] = table.validate_column_type(key)`; `columns` and
`table.columns` alias the same dict, so each step sees the previous
steps' writes. After phase 1 every updated key holds a structured
descriptor, so the non-structured branches are unreachable there. -/
def phase2 (compat : String → String → Bool) (t : Table) : List String → Table
  | [] => t
  | k :: rest =>
    let b := validate_column_type compat t k
    let cols :=
      match getCol t.columns k with
      | some (.structured d) => setCol t.columns k (.structured { d with valid := some b })
      | _ => t.columns
    phase2 compat { t with columns := cols } rest

/-- `TableViewSet.update_schema`, embedded from the source: absent payload
returns 200 at once; a sourced table is rejected; unknown columns are
rejected before any mutation; phase 1 (type overwrite) is saved, then
phase 2 (validity recompute) is saved. The returned table is the persisted
state after the call: errors leave it unchanged because no save is
reached. -/
def update_schema (compat : String → String → Bool) (t : Table)
    (updates : Option (List (String × String))) : Resp × Table :=
  match updates with
  | none => (.ok, t)
  | some u =>
    if t.external_data_source.isSome then (.sourcedTableError, t)
    else
      match checkColumnsExist t.columns u with
      | some k => (.unknownColumnError k, t)
      | none =>
        match phase1 t.columns u with
        | .error (k, v) => (.unknownTypeError k v, t)
        | .ok cols1 =>
          let t1 : Table := { t with columns := cols1 }
          (.ok, phase2 compat t1 (u.map (fun kv => kv.1)))

/-- `TableViewSet.destroy`, embedded from the source: a table linked to an
external data source is rejected with 400 ("Can't delete a sourced
table") and nothing changes; otherwise `instance.soft_delete()` runs
(modelled from the spec: soft delete sets the deleted flag, no cascading
physical deletion) and 204 is returned. -/
def destroy (t : Table) : Resp × Table :=
  if t.external_data_source.isSome then (.sourcedTableError, t)
  else (.noContent, { t with deleted := true })

/-- The Synchronizer's external collaborators: the query engine's live
schema provider (per table name), and the schema-inference probe invoked
with the table's format, URL pattern and credential, which can fail with
a `SchemaInferenceError` message. -/
structure SyncEnv where
  liveSchema : String → Option Catalog
  infer : String → String → Option Credential → Except String Catalog

/-- Modelled from the spec: the Column Catalog Synchronizer
(`DataWarehouseTable.get_columns`, not in the source tree): if the live
schema provider recognizes a table of this name, pull its field list from
there; otherwise derive fields from the table's schema-inference routine,
invoked with the table's format/URL/credential. Read-only: it computes but
does not persist. -/
def get_columns (env : SyncEnv) (name format url : String) (cred : Option Credential) :
    Except String Catalog :=
  match env.liveSchema name with
  | some cat => .ok cat
  | none => env.infer format url cred

/-- `TableViewSet.refresh_schema`, embedded from the source:
`table.columns = table.get_columns(); table.save()` — the stored catalog
is replaced wholesale by the Synchronizer's result. An inference failure
propagates (no save reached), leaving the stored table unchanged. -/
def refresh_schema (env : SyncEnv) (t : Table) : Except String Table :=
  match get_columns env t.name t.format t.url_pattern t.credential with
  | .error e => .error e
  | .ok cols => .ok { t with columns := cols }

/-- The persisted store the lifecycle operations act on: all table records
and all credential records. -/
structure State where
  tables : List Table
  credentials : List Credential
deriving Repr, DecidableEq

/-- Input to `TableSerializer.create`: the validated payload fields the
embedded code reads. -/
structure CreateInput where
  name : String
  format : String
  url_pattern : String
  credential : Option Credential
deriving Repr, DecidableEq

/-- Outcome of `TableSerializer.create`. `duplicateNameError` is the
source's `ValidationError("Table name already exists.")` (the spec's
`DuplicateNameError`); `validationError` wraps a synchronizer failure. -/
inductive CreateResult where
  | duplicateNameError
  | validationError (msg : String)
  | created (t : Table)
deriving Repr, DecidableEq

/-- `TableSerializer.create`, embedded from the source. The duplicate check
excludes `deleted=True` rows and filters on the owning team and the name.
When credential fields are supplied, `DataWarehouseCredential.objects.create`
persists the credential record immediately — before `table.get_columns()`
runs — so a synchronizer failure (re-raised as `ValidationError`) leaves
that credential record in the store while the table itself is never
saved. -/
def create (env : SyncEnv) (st : State) (team_id : Nat) (input : CreateInput) :
    CreateResult × State :=
  if st.tables.any (fun t => !t.deleted && t.team_id == team_id && t.name == input.name) then
    (.duplicateNameError, st)
  else
    let st1 : State :=
      match input.credential with
      | some c => { st with credentials := st.credentials ++ [c] }
      | none => st
    match get_columns env input.name input.format input.url_pattern input.credential with
    | .error e => (.validationError e, st1)
    | .ok cols =>
      let t : Table :=
        { name := input.name, format := input.format, url_pattern := input.url_pattern,
          team_id := team_id, deleted := false, external_data_source := none,
          credential := input.credential, columns := cols }
      (.created t, { st1 with tables := st1.tables ++ [t] })

/-- The descriptor a single accepted update `{k: ty}` leaves in the
catalog: Nullable-wrapped storage type, its registry hogql mapping, the
recomputed validity, and the untouched remaining keys. -/
def updatedDescriptor (compat : String → String → Bool) (t : Table) (k : String)
    (ty : DatabaseSerializedFieldType) : ColumnDef :=
  { clickhouse := some ("Nullable(" ++ SERIALIZED_FIELD_TO_CLICKHOUSE_MAPPING ty ++ ")")
    hogql := CLICKHOUSE_HOGQL_MAPPING (SERIALIZED_FIELD_TO_CLICKHOUSE_MAPPING ty)
    valid := some (compat t.format ("Nullable(" ++ SERIALIZED_FIELD_TO_CLICKHOUSE_MAPPING ty ++ ")"))
    extra := (colBase (getCol t.columns k)).extra }

/-- Concrete fixture: a one-column catalog with column `amount` of native
type `Nullable(Float64)`. -/
def catAmount : Catalog :=
  [("amount", .structured ⟨some "Nullable(Float64)", some "FloatDatabaseField", some true, []⟩)]

/-- Concrete fixture: a manually-defined (non-sourced) table whose catalog
has one column `amount` of native type `Nullable(Float64)`. -/
def tAmount : Table :=
  { name := "payments", format := "Parquet", url_pattern := "https://bucket/payments/*.pqt",
    team_id := 1, deleted := false, external_data_source := none, credential := none,
    columns := catAmount }

/-- Concrete fixture: the same table linked to an external data source. -/
def tSourced : Table :=
  { tAmount with external_data_source := some 7 }

/-- Concrete fixture: a compatibility predicate accepting every column
type for every format. -/
def compatAll : String → String → Bool := fun _ _ => true

/-- Concrete fixture: a synchronizer environment with no live schema whose
inference always fails. -/
def envFail : SyncEnv :=
  { liveSchema := fun _ => none, infer := fun _ _ _ => .error "inference failed" }

/-- Concrete fixture: a synchronizer environment with no live schema whose
inference always returns a one-column catalog. -/
def envOk : SyncEnv :=
  { liveSchema := fun _ => none, infer := fun _ _ _ => .ok catAmount }

/-- Concrete fixture: a create payload carrying credential fields. -/
def inputCred : CreateInput :=
  { name := "payments", format := "Parquet", url_pattern := "https://bucket/payments/*.pqt",
    credential := some ⟨"AKIA", "hunter2"⟩ }

theorem getCol_setCol_self (c : Catalog) (k : String) (v : ColumnValue) :
    getCol (setCol c k v) k = some v := by
  induction c with
  | nil => simp [setCol, getCol]
  | cons hd tl ih =>
    obtain ⟨k', v'⟩ := hd
    by_cases h : k' = k
    · simp [setCol, getCol, h]
    · simp [setCol, getCol, h, ih]

theorem setCol_setCol (c : Catalog) (k : String) (v w : ColumnValue) :
    setCol (setCol c k v) k w = setCol c k w := by
  induction c with
  | nil => simp [setCol]
  | cons hd tl ih =>
    obtain ⟨k', v'⟩ := hd
    by_cases h : k' = k
    · simp [setCol, h]
    · simp [setCol, h, ih]

theorem checkColumnsExist_eq_none (cols : Catalog) (u : List (String × String))
    (h : ∀ kv ∈ u, (getCol cols kv.1).isSome = true) :
    checkColumnsExist cols u = none := by
  induction u with
  | nil => rfl
  | cons hd tl ih =>
    obtain ⟨k, v⟩ := hd
    have hk := h (k, v) (List.mem_cons_self _ _)
    simp only [checkColumnsExist, hk, if_true]
    exact ih (fun kv hkv => h kv (List.mem_cons_of_mem _ hkv))

theorem checkColumnsExist_eq_some (cols : Catalog) (u : List (String × String))
    (h : ∃ kv ∈ u, getCol cols kv.1 = none) :
    ∃ k, checkColumnsExist cols u = some k := by
  induction u with
  | nil => simp at h
  | cons hd tl ih =>
    obtain ⟨k, v⟩ := hd
    by_cases hk : (getCol cols k).isSome = true
    · have htl : ∃ kv ∈ tl, getCol cols kv.1 = none := by
        obtain ⟨kv, hkv, hnone⟩ := h
        rcases List.mem_cons.mp hkv with heq | hmem
        · subst heq
          rw [hnone] at hk
          simp at hk
        · exact ⟨kv, hmem, hnone⟩
      obtain ⟨w, hw⟩ := ih htl
      exact ⟨w, by simp only [checkColumnsExist, hk, if_true, hw]⟩
    · exact ⟨k, by simp [checkColumnsExist, hk]⟩

theorem phase1_error_of_bad_type (u : List (String × String)) (cols : Catalog)
    (h : ∃ kv ∈ u, parseSerializedType kv.2 = none) :
    ∃ kv, phase1 cols u = Except.error kv := by
  induction u generalizing cols with
  | nil => simp at h
  | cons hd tl ih =>
    obtain ⟨k, v⟩ := hd
    cases hv : parseSerializedType v with
    | none => exact ⟨(k, v), by simp only [phase1, hv]⟩
    | some ty =>
      have htl : ∃ kv ∈ tl, parseSerializedType kv.2 = none := by
        obtain ⟨kv, hkv, hnone⟩ := h
        rcases List.mem_cons.mp hkv with heq | hmem
        · subst heq
          rw [hnone] at hv
          cases hv
        · exact ⟨kv, hmem, hnone⟩
      obtain ⟨kv, hkv⟩ := ih (applyTypeUpdate cols k ty) htl
      exact ⟨kv, by simp only [phase1, hv, hkv]⟩

theorem update_schema_single (compat : String → String → Bool) (t : Table) (k v : String)
    (ty : DatabaseSerializedFieldType)
    (hsrc : t.external_data_source = none)
    (hcol : (getCol t.columns k).isSome = true)
    (hty : parseSerializedType v = some ty) :
    update_schema compat t (some [(k, v)]) =
      (Resp.ok,
        { t with columns :=
            setCol t.columns k (.structured (updatedDescriptor compat t k ty)) }) := by
  have hchk : checkColumnsExist t.columns [(k, v)] = none := by
    simp [checkColumnsExist, hcol]
  have hph : phase1 t.columns [(k, v)] = Except.ok (applyTypeUpdate t.columns k ty) := by
    simp [phase1, hty]
  simp only [update_schema, hsrc, Option.isSome_none, Bool.false_eq_true, if_false, hchk, hph,
    List.map_cons, List.map_nil]
  simp [phase2, applyTypeUpdate, validate_column_type, getCol_setCol_self, setCol_setCol,
    updatedDescriptor, colBase]

/-- C10: an absent `updates` payload makes `update_schema` return success
immediately, for every table (sourced ones included — the sourced-table
check is never reached), with the stored catalog unchanged. -/
theorem update_schema_absent_payload_noop (compat : String → String → Bool) (t : Table) :
    update_schema compat t none = (Resp.ok, t) := rfl

/-- C2: on a table linked to an external data source, `update_schema` with
any present updates payload fails with the sourced-table error and leaves
the stored table (hence its catalog) unchanged. -/
theorem update_schema_sourced_error (compat : String → String → Bool) (t : Table)
    (u : List (String × String)) (h : t.external_data_source.isSome = true) :
    update_schema compat t (some u) = (Resp.sourcedTableError, t) := by
  simp [update_schema, h]

theorem update_schema_sourced_error_witness :
    tSourced.external_data_source.isSome = true ∧
    update_schema compatAll tSourced (some [("amount", "STRING")]) =
      (Resp.sourcedTableError, tSourced) :=
  ⟨by decide, update_schema_sourced_error compatAll tSourced [("amount", "STRING")] (by decide)⟩

/-- C9: `destroy` on a sourced table returns the sourced-table error and
changes nothing; on a non-sourced table it returns 204 and the only change
is the `deleted` flag being set — catalog, credential and every other
field are untouched and nothing else is removed. -/
theorem destroy_sourced_error_and_soft_delete (t : Table) :
    (t.external_data_source.isSome = true → destroy t = (Resp.sourcedTableError, t)) ∧
    (t.external_data_source = none →
      destroy t = (Resp.noContent, { t with deleted := true })) := by
  refine ⟨fun h => ?_, fun h => ?_⟩
  · simp [destroy, h]
  · simp [destroy, h]

theorem destroy_sourced_error_and_soft_delete_witness :
    (tSourced.external_data_source.isSome = true ∧
      destroy tSourced = (Resp.sourcedTableError, tSourced)) ∧
    (tAmount.external_data_source = none ∧
      destroy tAmount = (Resp.noContent, { tAmount with deleted := true })) :=
  ⟨⟨by decide, (destroy_sourced_error_and_soft_delete tSourced).1 (by decide)⟩,
   ⟨by decide, (destroy_sourced_error_and_soft_delete tAmount).2 (by decide)⟩⟩

/-- C5: on a non-sourced table, an updates map containing a key absent
from the catalog makes `update_schema` fail with the unknown-column error
and leaves the stored table unchanged — no update is applied for any key. -/
theorem update_schema_unknown_column (compat : String → String → Bool) (t : Table)
    (u : List (String × String)) (hsrc : t.external_data_source = none)
    (hmiss : ∃ kv ∈ u, getCol t.columns kv.1 = none) :
    ∃ k, update_schema compat t (some u) = (Resp.unknownColumnError k, t) := by
  obtain ⟨k, hk⟩ := checkColumnsExist_eq_some t.columns u hmiss
  exact ⟨k, by simp [update_schema, hsrc, hk]⟩

theorem update_schema_unknown_column_witness :
    tAmount.external_data_source = none ∧
    (∃ kv ∈ [("nonexistent", "STRING")], getCol tAmount.columns kv.1 = none) ∧
    ∃ k, update_schema compatAll tAmount (some [("nonexistent", "STRING")]) =
      (Resp.unknownColumnError k, tAmount) :=
  ⟨by decide, ⟨("nonexistent", "STRING"), by decide, by decide⟩,
   update_schema_unknown_column compatAll tAmount [("nonexistent", "STRING")] (by decide)
     ⟨("nonexistent", "STRING"), by decide, by decide⟩⟩

/-- C4: on a non-sourced table, when every key of the updates map exists in
the catalog but some requested type does not resolve in the registry,
`update_schema` fails with the unknown-type error and the persisted table
is unchanged — no update is applied, including for earlier keys whose
requested types were valid (the save is never reached). -/
theorem update_schema_unknown_type (compat : String → String → Bool) (t : Table)
    (u : List (String × String)) (hsrc : t.external_data_source = none)
    (hkeys : ∀ kv ∈ u, (getCol t.columns kv.1).isSome = true)
    (hbad : ∃ kv ∈ u, parseSerializedType kv.2 = none) :
    ∃ k v, update_schema compat t (some u) = (Resp.unknownTypeError k v, t) := by
  have hchk := checkColumnsExist_eq_none t.columns u hkeys
  obtain ⟨⟨k, v⟩, hkv⟩ := phase1_error_of_bad_type u t.columns hbad
  exact ⟨k, v, by simp [update_schema, hsrc, hchk, hkv]⟩

theorem update_schema_unknown_type_witness :
    tAmount.external_data_source = none ∧
    (∀ kv ∈ [("amount", "WIBBLE")], (getCol tAmount.columns kv.1).isSome = true) ∧
    (∃ kv ∈ [("amount", "WIBBLE")], parseSerializedType kv.2 = none) ∧
    ∃ k v, update_schema compatAll tAmount (some [("amount", "WIBBLE")]) =
      (Resp.unknownTypeError k v, tAmount) :=
  ⟨by decide, by decide, ⟨("amount", "WIBBLE"), by decide, by decide⟩,
   update_schema_unknown_type compatAll tAmount [("amount", "WIBBLE")] (by decide) (by decide)
     ⟨("amount", "WIBBLE"), by decide, by decide⟩⟩

/-- C1: on a non-sourced table, for a catalog column `k` and a serialized
type accepted by the registry, `update_schema {k: value}` succeeds, and the
resulting descriptor's native (clickhouse) type is the Nullable-wrapped
storage type mapped from the value, its query-engine (hogql) type is the
registry mapping of that storage type, and its `valid` flag is the one
recomputed (in phase 2) by the table's compatibility predicate on the
column's final committed type. The `amount`/"STRING" example is the
witness. -/
theorem update_schema_sets_types (compat : String → String → Bool) (t : Table) (k v : String)
    (ty : DatabaseSerializedFieldType)
    (hsrc : t.external_data_source = none)
    (hcol : (getCol t.columns k).isSome = true)
    (hty : parseSerializedType v = some ty) :
    ∃ d : ColumnDef,
      update_schema compat t (some [(k, v)]) =
        (Resp.ok, { t with columns := setCol t.columns k (.structured d) }) ∧
      getCol (update_schema compat t (some [(k, v)])).2.columns k = some (.structured d) ∧
      d.clickhouse = some ("Nullable(" ++ SERIALIZED_FIELD_TO_CLICKHOUSE_MAPPING ty ++ ")") ∧
      d.hogql = CLICKHOUSE_HOGQL_MAPPING (SERIALIZED_FIELD_TO_CLICKHOUSE_MAPPING ty) ∧
      d.valid = some (compat t.format ("Nullable(" ++ SERIALIZED_FIELD_TO_CLICKHOUSE_MAPPING ty ++ ")")) := by
  have h := update_schema_single compat t k v ty hsrc hcol hty
  refine ⟨updatedDescriptor compat t k ty, h, ?_, rfl, rfl, rfl⟩
  rw [h]
  exact getCol_setCol_self t.columns k _

theorem update_schema_sets_types_witness :
    tAmount.external_data_source = none ∧
    (getCol tAmount.columns "amount").isSome = true ∧
    parseSerializedType "STRING" = some .string ∧
    update_schema compatAll tAmount (some [("amount", "STRING")]) =
      (Resp.ok, { tAmount with columns :=
        [("amount", .structured ⟨some "Nullable(String)", some "StringDatabaseField", some true, []⟩)] }) ∧
    (∃ d : ColumnDef,
      update_schema compatAll tAmount (some [("amount", "STRING")]) =
        (Resp.ok, { tAmount with columns := setCol tAmount.columns "amount" (.structured d) }) ∧
      getCol (update_schema compatAll tAmount (some [("amount", "STRING")])).2.columns "amount" =
        some (.structured d) ∧
      d.clickhouse = some ("Nullable(" ++ SERIALIZED_FIELD_TO_CLICKHOUSE_MAPPING .string ++ ")") ∧
      d.hogql = CLICKHOUSE_HOGQL_MAPPING (SERIALIZED_FIELD_TO_CLICKHOUSE_MAPPING .string) ∧
      d.valid = some (compatAll tAmount.format
        ("Nullable(" ++ SERIALIZED_FIELD_TO_CLICKHOUSE_MAPPING .string ++ ")"))) :=
  ⟨by decide, by decide, by decide, by decide,
   update_schema_sets_types compatAll tAmount "amount" "STRING" .string
     (by decide) (by decide) (by decide)⟩

/-- C7: on a non-sourced table, for a catalog column `k` and a registry-accepted
serialized type, a second identical single-key `update_schema` call is
the identity on the stored table — in particular the descriptor for `k`
after the second call equals the descriptor after the first call. The
compatibility predicate is a function, hence deterministic, as the claim
assumes. -/
theorem update_schema_single_idempotent (compat : String → String → Bool) (t : Table)
    (k v : String) (ty : DatabaseSerializedFieldType)
    (hsrc : t.external_data_source = none)
    (hcol : (getCol t.columns k).isSome = true)
    (hty : parseSerializedType v = some ty) :
    update_schema compat (update_schema compat t (some [(k, v)])).2 (some [(k, v)]) =
      (Resp.ok, (update_schema compat t (some [(k, v)])).2) ∧
    getCol (update_schema compat (update_schema compat t (some [(k, v)])).2
        (some [(k, v)])).2.columns k =
      getCol (update_schema compat t (some [(k, v)])).2.columns k := by
  have h1 := update_schema_single compat t k v ty hsrc hcol hty
  rw [h1]
  have hsrc1 : ({ t with columns := setCol t.columns k (.structured (updatedDescriptor compat t k ty)) } : Table).external_data_source = none := hsrc
  have hcol1 : (getCol ({ t with columns := setCol t.columns k (.structured (updatedDescriptor compat t k ty)) } : Table).columns k).isSome = true := by
    simp [getCol_setCol_self]
  have h2 := update_schema_single compat { t with columns := setCol t.columns k (.structured (updatedDescriptor compat t k ty)) } k v ty hsrc1 hcol1 hty
  rw [h2]
  have hd : updatedDescriptor compat { t with columns := setCol t.columns k (.structured (updatedDescriptor compat t k ty)) } k ty = updatedDescriptor compat t k ty := by
    simp [updatedDescriptor, getCol_setCol_self, colBase]
  rw [hd, setCol_setCol]
  exact ⟨rfl, rfl⟩

theorem update_schema_single_idempotent_witness :
    tAmount.external_data_source = none ∧
    (getCol tAmount.columns "amount").isSome = true ∧
    parseSerializedType "STRING" = some .string ∧
    (update_schema compatAll (update_schema compatAll tAmount (some [("amount", "STRING")])).2
        (some [("amount", "STRING")]) =
      (Resp.ok, (update_schema compatAll tAmount (some [("amount", "STRING")])).2) ∧
    getCol (update_schema compatAll
        (update_schema compatAll tAmount (some [("amount", "STRING")])).2
        (some [("amount", "STRING")])).2.columns "amount" =
      getCol (update_schema compatAll tAmount (some [("amount", "STRING")])).2.columns "amount") :=
  ⟨by decide, by decide, by decide,
   update_schema_single_idempotent compatAll tAmount "amount" "STRING" .string
     (by decide) (by decide) (by decide)⟩

/-- C8: a successful `refresh_schema` stores exactly the Synchronizer's
freshly computed catalog (full overwrite, not a merge with the old
catalog), and with the upstream source unchanged a second refresh returns
the very same table — two consecutive refreshes yield identical stored
catalogs. -/
theorem refresh_schema_wholesale_idempotent (env : SyncEnv) (t t' : Table)
    (h : refresh_schema env t = Except.ok t') :
    get_columns env t.name t.format t.url_pattern t.credential = Except.ok t'.columns ∧
    refresh_schema env t' = Except.ok t' := by
  unfold refresh_schema at h
  cases hg : get_columns env t.name t.format t.url_pattern t.credential with
  | error e => rw [hg] at h; cases h
  | ok cols =>
    rw [hg] at h
    cases h
    exact ⟨rfl, by simp [refresh_schema, hg]⟩

theorem refresh_schema_wholesale_idempotent_witness :
    refresh_schema envOk tAmount = Except.ok tAmount ∧
    (get_columns envOk tAmount.name tAmount.format tAmount.url_pattern tAmount.credential =
        Except.ok tAmount.columns ∧
      refresh_schema envOk tAmount = Except.ok tAmount) :=
  ⟨rfl, refresh_schema_wholesale_idempotent envOk tAmount tAmount rfl⟩

/-- C6: `create` rejects an input whose name equals the name of an existing
non-deleted table of the same owning team with the duplicate-name error
and persists nothing; when every same-named table in the team is
soft-deleted (tables of other teams and soft-deleted tables are excluded
from the uniqueness check) and the synchronizer succeeds, `create`
succeeds. -/
theorem create_name_uniqueness (env : SyncEnv) (st : State) (team : Nat) (input : CreateInput) :
    ((∃ t ∈ st.tables, t.deleted = false ∧ t.team_id = team ∧ t.name = input.name) →
      create env st team input = (CreateResult.duplicateNameError, st)) ∧
    ((∀ t ∈ st.tables, t.name = input.name → t.team_id = team → t.deleted = true) →
      ∀ cols, get_columns env input.name input.format input.url_pattern input.credential =
          Except.ok cols →
        ∃ tbl, (create env st team input).1 = CreateResult.created tbl ∧
          tbl.name = input.name ∧ tbl.team_id = team ∧ tbl.deleted = false) := by
  constructor
  · rintro ⟨t, ht, hdel, hteam, hname⟩
    have hany : st.tables.any (fun t => !t.deleted && t.team_id == team && t.name == input.name) = true := by
      rw [List.any_eq_true]
      exact ⟨t, ht, by simp [hdel, hteam, hname]⟩
    simp [create, hany]
  · intro hall cols hcols
    have hany : st.tables.any (fun t => !t.deleted && t.team_id == team && t.name == input.name) = false := by
      rw [List.any_eq_false]
      intro t ht
      by_cases hname : t.name = input.name
      · by_cases hteam : t.team_id = team
        · have := hall t ht hname hteam
          simp [this]
        · simp [hteam]
      · simp [hname]
    refine ⟨⟨input.name, input.format, input.url_pattern, team, false, none, input.credential, cols⟩,
      ?_, rfl, rfl, rfl⟩
    cases hcred : input.credential with
    | none =>
      rw [hcred] at hcols
      simp [create, hany, hcred, hcols]
    | some c =>
      rw [hcred] at hcols
      simp [create, hany, hcred, hcols]

theorem create_name_uniqueness_witness :
    ((∃ t ∈ (⟨[tAmount], []⟩ : State).tables,
        t.deleted = false ∧ t.team_id = 1 ∧ t.name = inputCred.name) ∧
      create envOk ⟨[tAmount], []⟩ 1 inputCred = (CreateResult.duplicateNameError, ⟨[tAmount], []⟩)) ∧
    ((∀ t ∈ (⟨[{ tAmount with deleted := true }], []⟩ : State).tables,
        t.name = inputCred.name → t.team_id = 1 → t.deleted = true) ∧
      ∃ tbl, (create envOk ⟨[{ tAmount with deleted := true }], []⟩ 1 inputCred).1 =
          CreateResult.created tbl ∧
        tbl.name = inputCred.name ∧ tbl.team_id = 1 ∧ tbl.deleted = false) :=
  ⟨⟨⟨tAmount, by decide, by decide, by decide, by decide⟩,
    (create_name_uniqueness envOk ⟨[tAmount], []⟩ 1 inputCred).1
      ⟨tAmount, by decide, by decide, by decide, by decide⟩⟩,
   ⟨by decide,
    (create_name_uniqueness envOk ⟨[{ tAmount with deleted := true }], []⟩ 1 inputCred).2
      (by decide) catAmount rfl⟩⟩

/-- C3 counterexample: with an empty store, a payload carrying credential
fields, and a synchronizer that fails, `create` aborts with a
`ValidationError` and persists no table — but the credential record
created from the supplied fields does survive in the store, contradicting
the claim that no partial record (in particular no Credential) persists. -/
theorem create_sync_failure_persists_credential_cex :
    (create envFail ⟨[], []⟩ 1 inputCred).1 = CreateResult.validationError "inference failed" ∧
    (create envFail ⟨[], []⟩ 1 inputCred).2.tables = [] ∧
    (create envFail ⟨[], []⟩ 1 inputCred).2.credentials = [⟨"AKIA", "hunter2"⟩] := by
  decide

/-- C3 amended: past the duplicate-name check, a synchronizer failure
aborts `create` with a `ValidationError` and no table record is
persisted; however, when credential fields were supplied, the credential
record was already created before the synchronizer ran and survives the
failed creation. -/
theorem create_sync_failure_amended (env : SyncEnv) (st : State) (team : Nat)
    (input : CreateInput) (e : String)
    (hnodup : st.tables.any (fun t => !t.deleted && t.team_id == team && t.name == input.name) = false)
    (hfail : get_columns env input.name input.format input.url_pattern input.credential =
      Except.error e) :
    (create env st team input).1 = CreateResult.validationError e ∧
    (create env st team input).2.tables = st.tables ∧
    (create env st team input).2.credentials =
      st.credentials ++ (match input.credential with | some c => [c] | none => []) := by
  cases hcred : input.credential with
  | none =>
    rw [hcred] at hfail
    refine ⟨?_, ?_, ?_⟩ <;> simp [create, hnodup, hcred, hfail]
  | some c =>
    rw [hcred] at hfail
    refine ⟨?_, ?_, ?_⟩ <;> simp [create, hnodup, hcred, hfail]

theorem create_sync_failure_amended_witness :
    ((⟨[], []⟩ : State).tables.any
        (fun t => !t.deleted && t.team_id == 1 && t.name == inputCred.name) = false) ∧
    (get_columns envFail inputCred.name inputCred.format inputCred.url_pattern
        inputCred.credential = Except.error "inference failed") ∧
    ((create envFail ⟨[], []⟩ 1 inputCred).1 = CreateResult.validationError "inference failed" ∧
      (create envFail ⟨[], []⟩ 1 inputCred).2.tables = (⟨[], []⟩ : State).tables ∧
      (create envFail ⟨[], []⟩ 1 inputCred).2.credentials =
        (⟨[], []⟩ : State).credentials ++
          (match inputCred.credential with | some c => [c] | none => [])) :=
  ⟨by decide, rfl,
   create_sync_failure_amended envFail ⟨[], []⟩ 1 inputCred "inference failed"
     (by decide) rfl⟩

end Warehouse
